import Mathlib

/-!
Verification of the PhoenixAuto-Ops core policy layer: configuration threshold
resolution, the alert cooldown gate and dispatcher, the dry-run/retry healing
executor, and the per-collector health evaluators.  Python values, exceptions
and dictionaries are embedded shallowly; time is modelled in whole minutes as
an integer, and both clock reads inside one `send_alert` call are identified
with the call's single timestamp.
-/

/-- A Python exception value (the classes that can cross the boundaries the
claims are about). -/
inductive PyErr where
  | typeError : PyErr
  | valueError : PyErr
  | exc : String → PyErr
deriving DecidableEq

/-- A loaded configuration value: the subset of YAML values the code consumes.
`null` stands both for YAML null and for Python `None`. -/
inductive CVal where
  | null : CVal
  | num : ℚ → CVal
  | str : String → CVal
  | boolean : Bool → CVal
  | dict : List (String × CVal) → CVal

/-- The key walk of `ConfigLoader.get`: at each key, descend when the current
value is a dict containing the key, otherwise return the default. -/
def ConfigLoader.getPath : CVal → List String → CVal → CVal
  | v, [], _ => v
  | CVal.dict d, k :: ks, dflt =>
      match d.lookup k with
      | some v => ConfigLoader.getPath v ks dflt
      | none => dflt
  | _, _ :: _, dflt => dflt

/-- Python `key.split(".")`, written structurally over the character list. -/
def splitDotsAux : List Char → List Char → List String
  | [], acc => [String.mk acc.reverse]
  | c :: cs, acc =>
      if c = '.' then String.mk acc.reverse :: splitDotsAux cs []
      else splitDotsAux cs (c :: acc)

/-- Python `key.split(".")` on a string. -/
def splitDots (s : String) : List String := splitDotsAux s.data []

/-- `ConfigLoader.get`: dot-notation access with a default. -/
def ConfigLoader.get (cfg : CVal) (key : String) (dflt : CVal) : CVal :=
  ConfigLoader.getPath cfg (splitDots key) dflt

/-- Python `float(value)` on a configuration value.  Booleans convert to 0/1,
numbers pass through; string conversion is modelled for integer literals (the
only string shapes the thresholds file can carry that convert), everything
else raises. -/
def pyFloat : CVal → Except PyErr ℚ
  | CVal.num q => Except.ok q
  | CVal.boolean b => Except.ok (if b then 1 else 0)
  | CVal.str s =>
      match s.toInt? with
      | some n => Except.ok (n : ℚ)
      | none => Except.error PyErr.valueError
  | CVal.null => Except.error PyErr.typeError
  | CVal.dict _ => Except.error PyErr.typeError

/-- `ConfigLoader.get_threshold`: first `thresholds.<key>`, then the flat
top-level key, then the default; found values go through `float`, which may
raise. -/
def ConfigLoader.getThreshold (cfg : CVal) (metricKey : String) (dflt : ℚ) :
    Except PyErr ℚ :=
  match ConfigLoader.get cfg ("thresholds." ++ metricKey) CVal.null with
  | CVal.null =>
      match ConfigLoader.get cfg metricKey CVal.null with
      | CVal.null => Except.ok dflt
      | v => pyFloat v
  | v => pyFloat v

/-- `BaseMetricCollector.get_threshold`: any error from the config lookup is
swallowed and the default returned. -/
def BaseMetricCollector.getThreshold (cfg : CVal) (metricKey : String)
    (dflt : ℚ) : ℚ :=
  match ConfigLoader.getThreshold cfg metricKey dflt with
  | Except.ok v => v
  | Except.error _ => dflt

/-! ## Alert dispatcher (`app/alerting/base.py`) -/

/-- Dispatcher state: the cooldown window in minutes and the per-metric-key
`last_sent` dictionary of timestamps.  Time is modelled in whole minutes as
integers; the `datetime` subtraction and the `timedelta(minutes=...)`
comparison become integer subtraction and comparison. -/
structure AlertState where
  cooldownMinutes : ℤ
  lastSent : List (String × ℤ)

/-- Python dict assignment `d[k] = v`: the stored timestamp for `k` is
unconditionally overwritten (observed through `List.lookup`). -/
def dictSet (d : List (String × ℤ)) (k : String) (v : ℤ) :
    List (String × ℤ) :=
  (k, v) :: d.filter (fun p => !(p.1 == k))

/-- `BaseAlertSender._is_cooldown_over`: false exactly when a stored timestamp
exists and `now - last_time < cooldown_minutes`; true otherwise (in the source
`last_time and ...` only tests for `None`, a `datetime` being always truthy). -/
def BaseAlertSender.isCooldownOver (st : AlertState) (now : ℤ)
    (metricKey : String) : Bool :=
  match st.lastSent.lookup metricKey with
  | some lastTime => if now - lastTime < st.cooldownMinutes then false else true
  | none => true

/-- Python `str()` of a nonnegative natural number, digit by digit
(fuel-bounded recursion over the decimal expansion). -/
def natDigits : ℕ → ℕ → List Char
  | _, 0 => []
  | n, fuel + 1 =>
      if n < 10 then [Char.ofNat (48 + n)]
      else natDigits (n / 10) fuel ++ [Char.ofNat (48 + n % 10)]

/-- Smallest number of decimal digits after the point needed for a fraction
with denominator `d`: counts how often the running power `p` of ten must be
multiplied by 10 until `d` divides it (fuel-bounded). -/
def decExpAux (d : ℕ) : ℕ → ℕ → ℕ
  | _, 0 => 0
  | p, fuel + 1 => if p % d = 0 then 0 else decExpAux d (p * 10) fuel + 1

/-- Left-pad a digit list with zeros to the given length. -/
def padZeros (s : List Char) (n : ℕ) : List Char :=
  List.replicate (n - s.length) '0' ++ s

/-- Python `str()` of a float whose value is a finite decimal: shortest decimal
form, with `.0` appended for integral values, as CPython renders the literals
interpolated by `_format_message`.  Computed on the reduced
numerator/denominator of the rational. -/
def pyFloatRepr (q : ℚ) : String :=
  let sgn := if q.num < 0 then "-" else ""
  let n := q.num.natAbs
  let d := q.den
  let k := decExpAux d 1 40
  if k = 0 then sgn ++ String.mk (natDigits (n / d) 40) ++ ".0"
  else
    let ds := padZeros (natDigits (n * 10 ^ k / d) 40) (k + 1)
    sgn ++ String.mk (ds.take (ds.length - k)) ++ "."
        ++ String.mk (ds.drop (ds.length - k))

/-- Python `str.upper()` on one ASCII character. -/
def upperChar (c : Char) : Char :=
  if 97 ≤ c.toNat ∧ c.toNat ≤ 122 then Char.ofNat (c.toNat - 32) else c

/-- Python `level.upper()` (ASCII range, which covers the level names the
code passes). -/
def strUpper (s : String) : String := String.mk (s.data.map upperChar)

/-- `BaseAlertSender._format_message`. -/
def BaseAlertSender.formatMessage (metric : String) (value threshold : ℚ)
    (level : String) : String :=
  strUpper level ++ " Alert: " ++ metric ++ " exceeded threshold ("
    ++ pyFloatRepr value ++ " > " ++ pyFloatRepr threshold ++ ")"

/-- Outcome of one `send_alert` call: the boolean return value, the dispatcher
state afterwards, and whether the channel-specific `_send` was invoked. -/
structure SendOutcome where
  result : Bool
  state : AlertState
  attempted : Bool

/-- `BaseAlertSender.send_alert`: consult the cooldown gate, format the
message, invoke the transport once; on success record the timestamp and
return true, on a raised transport error catch it and return false.  The
transport is the channel-specific `_send`, a function from the message to
either success or a raised exception. -/
def BaseAlertSender.sendAlert (st : AlertState) (now : ℤ) (metric : String)
    (value threshold : ℚ) (level : String)
    (transport : String → Except PyErr Unit) : SendOutcome :=
  if BaseAlertSender.isCooldownOver st now metric then
    match transport (BaseAlertSender.formatMessage metric value threshold level) with
    | Except.ok _ =>
        ⟨true, ⟨st.cooldownMinutes, dictSet st.lastSent metric now⟩, true⟩
    | Except.error _ => ⟨false, st, true⟩
  else ⟨false, st, false⟩

/-- Python truthiness of an optional string credential: false for `None` and
for the empty string. -/
def truthyStr : Option String → Bool
  | none => false
  | some s => !s.isEmpty

/-- Telegram credentials as loaded from config (absent keys give `None`). -/
structure TelegramAlertSender.Creds where
  botToken : Option String
  chatId : Option String

/-- `TelegramAlertSender._send`: with missing credentials log a warning and
return (a no-op success); otherwise perform the API call, re-raising any
transport failure. -/
def TelegramAlertSender.send (c : TelegramAlertSender.Creds)
    (transport : String → Except PyErr Unit) (message : String) :
    Except PyErr Unit :=
  if !truthyStr c.botToken || !truthyStr c.chatId then Except.ok ()
  else transport message

/-- `SlackAlertSender._send`: with a missing webhook URL return (a no-op
success); otherwise perform the webhook POST, re-raising any failure. -/
def SlackAlertSender.send (webhookUrl : Option String)
    (transport : String → Except PyErr Unit) (message : String) :
    Except PyErr Unit :=
  if !truthyStr webhookUrl then Except.ok ()
  else transport message

/-! ## Retry executor (`app/healing/base.py`) -/

/-- A Python value as returned by a healing operation. -/
inductive PyVal where
  | boolean : Bool → PyVal
  | num : ℚ → PyVal
  | str : String → PyVal
  | none : PyVal
deriving DecidableEq

/-- Observable outcome of one `BaseHealer._safe_execute` call: the returned
value or propagated exception, the number of operation invocations, and the
number of `sleep(2)` backoffs performed. -/
structure HealRun where
  result : Except PyErr PyVal
  calls : ℕ
  sleeps : ℕ

/-- The attempt loop of `_safe_execute`, recursing on the remaining loop
iterations; `attempt` is the 1-based attempt counter and `op i` the outcome of
the i-th invocation of the wrapped operation.  Dry-run returns `True` before
invoking the operation; a failure on the final attempt re-raises, earlier
failures sleep 2 units and retry; an exhausted loop falls off the end of the
Python function and returns `None`. -/
def BaseHealer.safeExecuteLoop (dryRun : Bool) (maxRetries : ℕ)
    (op : ℕ → Except PyErr PyVal) : ℕ → ℕ → HealRun
  | _, 0 => ⟨Except.ok PyVal.none, 0, 0⟩
  | attempt, remaining + 1 =>
      if dryRun then ⟨Except.ok (PyVal.boolean true), 0, 0⟩
      else
        match op attempt with
        | Except.ok r => ⟨Except.ok r, 1, 0⟩
        | Except.error e =>
            if attempt = maxRetries then ⟨Except.error e, 1, 0⟩
            else
              let rest :=
                BaseHealer.safeExecuteLoop dryRun maxRetries op (attempt + 1)
                  remaining
              ⟨rest.result, rest.calls + 1, rest.sleeps + 1⟩

/-- `BaseHealer._safe_execute`: run the attempt loop from attempt 1 with
`max_retries` iterations available. -/
def BaseHealer.safeExecute (dryRun : Bool) (maxRetries : ℕ)
    (op : ℕ → Except PyErr PyVal) : HealRun :=
  BaseHealer.safeExecuteLoop dryRun maxRetries op 1 maxRetries

/-! ## Metric collectors (`app/monitoring/`) -/

/-- `BaseMetricCollector._safe_execute`: a raised collection error is caught
and replaced by `None`. -/
def BaseMetricCollector.safeExecute (r : Except PyErr ℚ) : Option ℚ :=
  match r with
  | Except.ok v => some v
  | Except.error _ => Option.none

/-- The psutil environment seen by one `SystemMetrics.collect` call: the
outcome (value or raised error) of each underlying probe. -/
structure SystemEnv where
  cpuUsage : Except PyErr ℚ
  memoryUsage : Except PyErr ℚ
  diskUsage : Except PyErr ℚ
  loadAverage : Except PyErr ℚ

/-- The dictionary built by `SystemMetrics.collect` (fixed string keys are
rendered as fields). -/
structure SystemSamples where
  cpuUsagePercent : Option ℚ
  memoryUsagePercent : Option ℚ
  diskUsagePercent : Option ℚ
  loadAverage : Option ℚ

/-- `SystemMetrics.collect`: each probe is wrapped in `_safe_execute`. -/
def SystemMetrics.collect (env : SystemEnv) : SystemSamples :=
  ⟨BaseMetricCollector.safeExecute env.cpuUsage,
   BaseMetricCollector.safeExecute env.memoryUsage,
   BaseMetricCollector.safeExecute env.diskUsage,
   BaseMetricCollector.safeExecute env.loadAverage⟩

/-- Python `<` between a possibly-`None` sample and a float threshold: raises
`TypeError` on `None`, otherwise compares. -/
def pyLt (a : Option ℚ) (b : ℚ) : Except PyErr Bool :=
  match a with
  | some x => Except.ok (decide (x < b))
  | Option.none => Except.error PyErr.typeError

/-- `SystemMetrics.is_healthy`: each comparison is evaluated in source order
and may raise; the verdict is the conjunction of the four comparisons. -/
def SystemMetrics.isHealthy (cfg : CVal) (env : SystemEnv) :
    Except PyErr Bool := do
  let metrics := SystemMetrics.collect env
  let cpuOk ← pyLt metrics.cpuUsagePercent
    (BaseMetricCollector.getThreshold cfg "cpu_usage_percent" 80)
  let memOk ← pyLt metrics.memoryUsagePercent
    (BaseMetricCollector.getThreshold cfg "memory_usage_percent" 80)
  let diskOk ← pyLt metrics.diskUsagePercent
    (BaseMetricCollector.getThreshold cfg "disk_usage_percent" 80)
  let loadOk ← pyLt metrics.loadAverage
    (BaseMetricCollector.getThreshold cfg "load_average_limit" 80)
  return (cpuOk && memOk && diskOk && loadOk)

/-- The psutil environment seen by one `NetworkMetrics.collect` call. -/
structure NetworkEnv where
  bytesSentDelta : Except PyErr ℚ
  bytesRecvDelta : Except PyErr ℚ
  tcpConnections : Except PyErr ℚ

/-- `NetworkMetrics._get_bytes_sent`: its own try/except turns any probe error
into 0.0, so the surrounding `_safe_execute` never sees an exception. -/
def NetworkMetrics.getBytesSent (env : NetworkEnv) : ℚ :=
  match env.bytesSentDelta with
  | Except.ok v => v
  | Except.error _ => 0

/-- `NetworkMetrics._get_bytes_recv`: errors fall back to 0.0. -/
def NetworkMetrics.getBytesRecv (env : NetworkEnv) : ℚ :=
  match env.bytesRecvDelta with
  | Except.ok v => v
  | Except.error _ => 0

/-- `NetworkMetrics._get_connections`: errors fall back to 0. -/
def NetworkMetrics.getConnections (env : NetworkEnv) : ℚ :=
  match env.tcpConnections with
  | Except.ok v => v
  | Except.error _ => 0

/-- The dictionary built by `NetworkMetrics.collect`. -/
structure NetworkSamples where
  networkBytesSentPerSec : Option ℚ
  networkBytesRecvPerSec : Option ℚ
  networkConnections : Option ℚ

/-- `NetworkMetrics.collect`: each getter (already non-raising) wrapped in
`_safe_execute`. -/
def NetworkMetrics.collect (env : NetworkEnv) : NetworkSamples :=
  ⟨BaseMetricCollector.safeExecute (Except.ok (NetworkMetrics.getBytesSent env)),
   BaseMetricCollector.safeExecute (Except.ok (NetworkMetrics.getBytesRecv env)),
   BaseMetricCollector.safeExecute (Except.ok (NetworkMetrics.getConnections env))⟩

/-- `NetworkMetrics.is_healthy`: only the connection count is compared against
a threshold. -/
def NetworkMetrics.isHealthy (cfg : CVal) (env : NetworkEnv) :
    Except PyErr Bool := do
  let metrics := NetworkMetrics.collect env
  let connectionsOk ← pyLt metrics.networkConnections
    (BaseMetricCollector.getThreshold cfg "network.max_connections" 500)
  return connectionsOk

/-- Modelled from the spec: a network health verdict that ANDs strict
less-than comparisons across ALL metrics the collector reports (the
bytes-sent/received samples included, each against its resolved threshold with
the collector's stock default), as section 4.5 of the spec prescribes for
every concrete collector. -/
def NetworkMetrics.isHealthyAllMetrics (cfg : CVal) (env : NetworkEnv) :
    Except PyErr Bool := do
  let metrics := NetworkMetrics.collect env
  let sentOk ← pyLt metrics.networkBytesSentPerSec
    (BaseMetricCollector.getThreshold cfg "network_bytes_sent_per_sec" 80)
  let recvOk ← pyLt metrics.networkBytesRecvPerSec
    (BaseMetricCollector.getThreshold cfg "network_bytes_recv_per_sec" 80)
  let connectionsOk ← pyLt metrics.networkConnections
    (BaseMetricCollector.getThreshold cfg "network.max_connections" 500)
  return (sentOk && recvOk && connectionsOk)

/-! ## Concrete fixtures used by the worked examples -/

/-- A transport whose send always succeeds. -/
def transportOk : String → Except PyErr Unit := fun _ => Except.ok ()

/-- A transport whose send always raises. -/
def transportDown : String → Except PyErr Unit :=
  fun _ => Except.error (PyErr.exc "connection refused")

/-- The spec's worked-example thresholds for the system collector:
cpu 80, memory 90, disk 90, load 5. -/
def sysExampleCfg : CVal :=
  CVal.dict [("thresholds", CVal.dict
    [("cpu_usage_percent", CVal.num 80), ("memory_usage_percent", CVal.num 90),
     ("disk_usage_percent", CVal.num 90), ("load_average_limit", CVal.num 5)])]

/-- The spec's worked-example configuration for threshold resolution:
`{thresholds: {cpu_usage_percent: 90}}`. -/
def thrExampleCfg : CVal :=
  CVal.dict [("thresholds", CVal.dict [("cpu_usage_percent", CVal.num 90)])]

/-! ## Helper lemmas -/

theorem lookup_dictSet_self (d : List (String × ℤ)) (k : String) (v : ℤ) :
    (dictSet d k v).lookup k = some v := by
  simp [dictSet, List.lookup]

/-! ## Claims -/

/-- Claim C1: for every metric key, two successive `send_alert` calls behave as
(true, false) when the second falls strictly within the cooldown window of the
first successful dispatch and (true, true) when the gap is at least the
window; the gate is eligible on the first-ever check for a key, and
eligibility depends only on the stored timestamp for the key and the window,
not on any underlying condition. -/
theorem claim_C1_cooldown_gate (st : AlertState) (k lvl : String) (t1 t2 : ℤ)
    (v thr : ℚ) (tr : String → Except PyErr Unit)
    (hfirst : st.lastSent.lookup k = none)
    (hok : tr (BaseAlertSender.formatMessage k v thr lvl) = Except.ok ()) :
    BaseAlertSender.isCooldownOver st t1 k = true ∧
    (BaseAlertSender.sendAlert st t1 k v thr lvl tr).result = true ∧
    (t2 - t1 < st.cooldownMinutes →
      (BaseAlertSender.sendAlert
        (BaseAlertSender.sendAlert st t1 k v thr lvl tr).state
        t2 k v thr lvl tr).result = false) ∧
    (st.cooldownMinutes ≤ t2 - t1 →
      (BaseAlertSender.sendAlert
        (BaseAlertSender.sendAlert st t1 k v thr lvl tr).state
        t2 k v thr lvl tr).result = true) ∧
    (∀ st2 : AlertState, st2.cooldownMinutes = st.cooldownMinutes →
      st2.lastSent.lookup k = st.lastSent.lookup k →
      BaseAlertSender.isCooldownOver st2 t2 k
        = BaseAlertSender.isCooldownOver st t2 k) := by
  have hgate1 : BaseAlertSender.isCooldownOver st t1 k = true := by
    simp [BaseAlertSender.isCooldownOver, hfirst]
  have hsend1 : BaseAlertSender.sendAlert st t1 k v thr lvl tr
      = ⟨true, ⟨st.cooldownMinutes, dictSet st.lastSent k t1⟩, true⟩ := by
    simp [BaseAlertSender.sendAlert, hgate1, hok]
  have hgate2 : BaseAlertSender.isCooldownOver
      ⟨st.cooldownMinutes, dictSet st.lastSent k t1⟩ t2 k
      = if t2 - t1 < st.cooldownMinutes then false else true := by
    simp [BaseAlertSender.isCooldownOver, lookup_dictSet_self]
  refine ⟨hgate1, by simp [hsend1], ?_, ?_, ?_⟩
  · intro hwin
    rw [hsend1]
    simp [BaseAlertSender.sendAlert, hgate2, hwin]
  · intro hwin
    rw [hsend1]
    simp [BaseAlertSender.sendAlert, hgate2, not_lt.mpr hwin, hok]
  · intro st2 hwin hlast
    simp [BaseAlertSender.isCooldownOver, hwin, hlast]

/-- Witness for C1 at a concrete instance: fresh key, window 15 minutes,
first dispatch at time 0, second at time 5 (inside the window). -/
theorem claim_C1_cooldown_gate_witness :
    (List.lookup "cpu_usage_percent" ([] : List (String × ℤ)) = none ∧
     transportOk (BaseAlertSender.formatMessage "cpu_usage_percent" 95 80 "warning")
       = Except.ok ()) ∧
    (BaseAlertSender.sendAlert ⟨15, []⟩ 0 "cpu_usage_percent" 95 80 "warning"
      transportOk).result = true ∧
    (BaseAlertSender.sendAlert
      (BaseAlertSender.sendAlert ⟨15, []⟩ 0 "cpu_usage_percent" 95 80 "warning"
        transportOk).state
      5 "cpu_usage_percent" 95 80 "warning" transportOk).result = false :=
  have h := claim_C1_cooldown_gate ⟨15, []⟩ "cpu_usage_percent" "warning" 0 5
    95 80 transportOk rfl rfl
  ⟨⟨rfl, rfl⟩, h.2.1, h.2.2.1 (by decide)⟩

/-- Claim C2: a failed transport send leaves the cooldown state for the key
unchanged (the timestamp is recorded only after the send has returned without
error), so a subsequent `send_alert` — here at a time that would have been
inside the window had the failure consumed it — still attempts delivery. -/
theorem claim_C2_failed_send_keeps_cooldown (st : AlertState) (k lvl : String)
    (t1 t2 : ℤ) (v thr : ℚ) (trFail trOk : String → Except PyErr Unit)
    (e : PyErr)
    (hfail : trFail (BaseAlertSender.formatMessage k v thr lvl)
      = Except.error e)
    (hok : trOk (BaseAlertSender.formatMessage k v thr lvl) = Except.ok ())
    (helig1 : BaseAlertSender.isCooldownOver st t1 k = true)
    (helig2 : BaseAlertSender.isCooldownOver st t2 k = true) :
    (BaseAlertSender.sendAlert st t1 k v thr lvl trFail).state = st ∧
    (BaseAlertSender.sendAlert st t1 k v thr lvl trFail).result = false ∧
    (BaseAlertSender.sendAlert
      (BaseAlertSender.sendAlert st t1 k v thr lvl trFail).state
      t2 k v thr lvl trOk).attempted = true ∧
    (BaseAlertSender.sendAlert
      (BaseAlertSender.sendAlert st t1 k v thr lvl trFail).state
      t2 k v thr lvl trOk).result = true := by
  have h1 : BaseAlertSender.sendAlert st t1 k v thr lvl trFail
      = ⟨false, st, true⟩ := by
    simp [BaseAlertSender.sendAlert, helig1, hfail]
  refine ⟨by simp [h1], by simp [h1], ?_, ?_⟩ <;>
    · rw [h1]
      simp [BaseAlertSender.sendAlert, helig2, hok]

/-- Witness for C2: fresh key, window 15, failed dispatch at time 0, retry at
time 5 — well inside the window — still attempts and succeeds. -/
theorem claim_C2_failed_send_keeps_cooldown_witness :
    (transportDown (BaseAlertSender.formatMessage "cpu_usage_percent" 95 80 "warning")
       = Except.error (PyErr.exc "connection refused") ∧
     transportOk (BaseAlertSender.formatMessage "cpu_usage_percent" 95 80 "warning")
       = Except.ok () ∧
     BaseAlertSender.isCooldownOver ⟨15, []⟩ 0 "cpu_usage_percent" = true ∧
     BaseAlertSender.isCooldownOver ⟨15, []⟩ 5 "cpu_usage_percent" = true) ∧
    (BaseAlertSender.sendAlert ⟨15, []⟩ 0 "cpu_usage_percent" 95 80 "warning"
      transportDown).state = (⟨15, []⟩ : AlertState) ∧
    (BaseAlertSender.sendAlert
      (BaseAlertSender.sendAlert ⟨15, []⟩ 0 "cpu_usage_percent" 95 80 "warning"
        transportDown).state
      5 "cpu_usage_percent" 95 80 "warning" transportOk).result = true :=
  have h := claim_C2_failed_send_keeps_cooldown ⟨15, []⟩ "cpu_usage_percent"
    "warning" 0 5 95 80 transportDown transportOk (PyErr.exc "connection refused")
    rfl rfl rfl rfl
  ⟨⟨rfl, rfl, rfl, rfl⟩, h.1, h.2.2.2⟩

/-- Claim C7: `send_alert` never lets a transport exception propagate: for any
state, time and inputs, a raised transport error is absorbed and surfaced only
as the boolean return value false (with the dispatcher state unchanged); the
embedding of `send_alert` is a total function into `SendOutcome`, so no
exception path exists at its boundary. -/
theorem claim_C7_no_exception_escape (st : AlertState) (k lvl : String)
    (now : ℤ) (v thr : ℚ) (tr : String → Except PyErr Unit) (e : PyErr)
    (hfail : tr (BaseAlertSender.formatMessage k v thr lvl)
      = Except.error e) :
    (BaseAlertSender.sendAlert st now k v thr lvl tr).result = false ∧
    (BaseAlertSender.sendAlert st now k v thr lvl tr).state = st := by
  cases hg : BaseAlertSender.isCooldownOver st now k <;>
    simp [BaseAlertSender.sendAlert, hg, hfail]

/-- Witness for C7: a concrete failing transport surfaces as false. -/
theorem claim_C7_no_exception_escape_witness :
    (transportDown (BaseAlertSender.formatMessage "memory_usage_percent" 97 90 "critical")
       = Except.error (PyErr.exc "connection refused")) ∧
    (BaseAlertSender.sendAlert ⟨15, []⟩ 3 "memory_usage_percent" 97 90 "critical"
      transportDown).result = false ∧
    (BaseAlertSender.sendAlert ⟨15, []⟩ 3 "memory_usage_percent" 97 90 "critical"
      transportDown).state = (⟨15, []⟩ : AlertState) :=
  have h := claim_C7_no_exception_escape ⟨15, []⟩ "memory_usage_percent"
    "critical" 3 97 90 transportDown (PyErr.exc "connection refused") rfl
  ⟨rfl, h.1, h.2⟩

/-- Claim C9: with missing Telegram credentials (or a missing Slack webhook
URL) the channel-specific `_send` returns without raising, so `send_alert`
returns true and records the cooldown timestamp even though nothing was
delivered; a later call for the same key inside the window is then rejected by
the gate without the transport ever being consulted. -/
theorem claim_C9_missing_creds_silences (st : AlertState) (k lvl : String)
    (t1 t2 : ℤ) (v thr : ℚ) (tc : TelegramAlertSender.Creds)
    (webhookUrl : Option String) (tr tr2 : String → Except PyErr Unit)
    (hcreds : (!truthyStr tc.botToken || !truthyStr tc.chatId) = true)
    (hhook : truthyStr webhookUrl = false)
    (helig : BaseAlertSender.isCooldownOver st t1 k = true)
    (hwin : t2 - t1 < st.cooldownMinutes) :
    (BaseAlertSender.sendAlert st t1 k v thr lvl
      (TelegramAlertSender.send tc tr)).result = true ∧
    (BaseAlertSender.sendAlert st t1 k v thr lvl
      (TelegramAlertSender.send tc tr)).state.lastSent.lookup k = some t1 ∧
    (BaseAlertSender.sendAlert
      (BaseAlertSender.sendAlert st t1 k v thr lvl
        (TelegramAlertSender.send tc tr)).state
      t2 k v thr lvl (TelegramAlertSender.send tc tr)).result = false ∧
    (BaseAlertSender.sendAlert
      (BaseAlertSender.sendAlert st t1 k v thr lvl
        (TelegramAlertSender.send tc tr)).state
      t2 k v thr lvl tr2).attempted = false ∧
    (BaseAlertSender.sendAlert st t1 k v thr lvl
      (SlackAlertSender.send webhookUrl tr)).result = true ∧
    (BaseAlertSender.sendAlert st t1 k v thr lvl
      (SlackAlertSender.send webhookUrl tr)).state.lastSent.lookup k
        = some t1 := by
  have htel : ∀ msg, TelegramAlertSender.send tc tr msg = Except.ok () := by
    intro msg
    simp [TelegramAlertSender.send, hcreds]
  have hslack : ∀ msg, SlackAlertSender.send webhookUrl tr msg
      = Except.ok () := by
    intro msg
    simp [SlackAlertSender.send, hhook]
  have h1 : BaseAlertSender.sendAlert st t1 k v thr lvl
      (TelegramAlertSender.send tc tr)
      = ⟨true, ⟨st.cooldownMinutes, dictSet st.lastSent k t1⟩, true⟩ := by
    simp [BaseAlertSender.sendAlert, helig, htel]
  have hgate2 : BaseAlertSender.isCooldownOver
      ⟨st.cooldownMinutes, dictSet st.lastSent k t1⟩ t2 k = false := by
    simp [BaseAlertSender.isCooldownOver, lookup_dictSet_self, hwin]
  refine ⟨by simp [h1], by simp [h1, lookup_dictSet_self], ?_, ?_, ?_, ?_⟩
  · rw [h1]
    simp [BaseAlertSender.sendAlert, hgate2]
  · rw [h1]
    simp [BaseAlertSender.sendAlert, hgate2]
  · simp [BaseAlertSender.sendAlert, helig, hslack]
  · simp [BaseAlertSender.sendAlert, helig, hslack, lookup_dictSet_self]

/-- Witness for C9: Telegram with no bot token, Slack with no webhook URL,
fresh key, window 15, first call at time 0, second at time 5. -/
theorem claim_C9_missing_creds_silences_witness :
    ((!truthyStr (Option.none : Option String) || !truthyStr (some "4242")) = true ∧
     truthyStr (Option.none : Option String) = false ∧
     BaseAlertSender.isCooldownOver ⟨15, []⟩ 0 "disk_usage_percent" = true ∧
     (5 : ℤ) - 0 < 15) ∧
    (BaseAlertSender.sendAlert ⟨15, []⟩ 0 "disk_usage_percent" 99 90 "warning"
      (TelegramAlertSender.send ⟨Option.none, some "4242"⟩ transportOk)).result
        = true ∧
    (BaseAlertSender.sendAlert
      (BaseAlertSender.sendAlert ⟨15, []⟩ 0 "disk_usage_percent" 99 90 "warning"
        (TelegramAlertSender.send ⟨Option.none, some "4242"⟩ transportOk)).state
      5 "disk_usage_percent" 99 90 "warning" transportOk).attempted = false :=
  have h := claim_C9_missing_creds_silences ⟨15, []⟩ "disk_usage_percent"
    "warning" 0 5 99 90 ⟨Option.none, some "4242"⟩ Option.none transportOk
    transportOk rfl rfl rfl (by decide)
  ⟨⟨rfl, rfl, rfl, by decide⟩, h.1, h.2.2.2.1⟩

/-- Loop invariant for an always-failing operation: starting at attempt `a`
with `m ≥ 1` iterations left and `a + m = maxRetries + 1`, the loop performs
`m` invocations, `m - 1` backoff sleeps, and propagates the error raised on
the final attempt. -/
theorem safeExecuteLoop_all_fail (maxRetries : ℕ) (err : ℕ → PyErr) :
    ∀ m a, 1 ≤ m → a + m = maxRetries + 1 →
    BaseHealer.safeExecuteLoop false maxRetries
        (fun i => Except.error (err i)) a m
      = ⟨Except.error (err maxRetries), m, m - 1⟩ := by
  intro m
  induction m with
  | zero => intro a hm _; omega
  | succ n ih =>
    intro a _ hsum
    by_cases hn : n = 0
    · subst hn
      have ha : a = maxRetries := by omega
      subst ha
      simp [BaseHealer.safeExecuteLoop]
    · have ha : ¬(a = maxRetries) := by omega
      rw [BaseHealer.safeExecuteLoop]
      simp only [Bool.false_eq_true, if_false, ha, ite_false]
      rw [ih (a + 1) (by omega) (by omega)]
      simp [HealRun.mk.injEq]
      omega

/-- Loop invariant for an operation that first succeeds on attempt `j` (all
earlier attempts fail): the loop stops there, returning the operation's
result after `j - a + 1` invocations and `j - a` sleeps. -/
theorem safeExecuteLoop_first_success (maxRetries : ℕ)
    (op : ℕ → Except PyErr PyVal) (j : ℕ) (r : PyVal)
    (hsucc : op j = Except.ok r) (hjm : j ≤ maxRetries)
    (hfail : ∀ i, i < j → ∃ e, op i = Except.error e) :
    ∀ m a, a + m = maxRetries + 1 → a ≤ j →
    BaseHealer.safeExecuteLoop false maxRetries op a m
      = ⟨Except.ok r, j - a + 1, j - a⟩ := by
  intro m
  induction m with
  | zero => intro a hsum haj; omega
  | succ n ih =>
    intro a hsum haj
    by_cases haj2 : a = j
    · subst haj2
      rw [BaseHealer.safeExecuteLoop]
      simp [hsucc]
    · obtain ⟨e, he⟩ := hfail a (by omega)
      have ha : ¬(a = maxRetries) := by omega
      rw [BaseHealer.safeExecuteLoop]
      simp only [Bool.false_eq_true, if_false, he, ha, ite_false]
      rw [ih (a + 1) (by omega) (by omega)]
      simp [HealRun.mk.injEq]
      omega

/-- Claim C3: with dry-run active the retry executor returns success (`True`)
immediately and the wrapped operation is never invoked — the call counter of
any single `execute` call is zero, hence it stays zero across arbitrarily
repeated calls; the flag is read on each call of the embedding, not cached. -/
theorem claim_C3_dry_run (maxRetries : ℕ) (op : ℕ → Except PyErr PyVal)
    (h : 1 ≤ maxRetries) :
    (BaseHealer.safeExecute true maxRetries op).result
      = Except.ok (PyVal.boolean true) ∧
    (BaseHealer.safeExecute true maxRetries op).calls = 0 := by
  obtain ⟨m, rfl⟩ : ∃ m, maxRetries = m + 1 := ⟨maxRetries - 1, by omega⟩
  exact ⟨rfl, rfl⟩

/-- Witness for C3 at the configured default of three retries, with an
operation that would fail if it were ever invoked. -/
theorem claim_C3_dry_run_witness :
    1 ≤ 3 ∧
    (BaseHealer.safeExecute true 3
      (fun _ => Except.error (PyErr.exc "service restart failed"))).result
        = Except.ok (PyVal.boolean true) ∧
    (BaseHealer.safeExecute true 3
      (fun _ => Except.error (PyErr.exc "service restart failed"))).calls
        = 0 :=
  ⟨by decide,
   claim_C3_dry_run 3 (fun _ => Except.error (PyErr.exc "service restart failed"))
     (by decide)⟩

/-- Claim C4: with dry-run inactive, an operation failing on every invocation
is invoked exactly `max_retries` times with a fixed backoff sleep between
consecutive failed attempts (and none after the last), and the error of the
final attempt propagates; an operation first succeeding on attempt `j` stops
the loop there and its result is returned. -/
theorem claim_C4_retry_bound (maxRetries : ℕ) (err : ℕ → PyErr)
    (h : 1 ≤ maxRetries) :
    ((BaseHealer.safeExecute false maxRetries
        (fun i => Except.error (err i))).result
          = Except.error (err maxRetries) ∧
     (BaseHealer.safeExecute false maxRetries
        (fun i => Except.error (err i))).calls = maxRetries ∧
     (BaseHealer.safeExecute false maxRetries
        (fun i => Except.error (err i))).sleeps = maxRetries - 1) ∧
    (∀ (op : ℕ → Except PyErr PyVal) (j : ℕ) (r : PyVal),
      1 ≤ j → j ≤ maxRetries → op j = Except.ok r →
      (∀ i, i < j → ∃ e, op i = Except.error e) →
      (BaseHealer.safeExecute false maxRetries op).result = Except.ok r ∧
      (BaseHealer.safeExecute false maxRetries op).calls = j ∧
      (BaseHealer.safeExecute false maxRetries op).sleeps = j - 1) := by
  constructor
  · rw [BaseHealer.safeExecute,
      safeExecuteLoop_all_fail maxRetries err maxRetries 1 h (by omega)]
    exact ⟨rfl, rfl, rfl⟩
  · intro op j r hj hjm hsucc hfail
    rw [BaseHealer.safeExecute,
      safeExecuteLoop_first_success maxRetries op j r hsucc hjm hfail
        maxRetries 1 (by omega) hj]
    refine ⟨rfl, ?_, rfl⟩
    show j - 1 + 1 = j
    omega

/-- Witness for C4 at the configured default of three retries with an
always-failing operation: three invocations, two sleeps, error propagated. -/
theorem claim_C4_retry_bound_witness :
    1 ≤ 3 ∧
    (BaseHealer.safeExecute false 3
      (fun _ => Except.error (PyErr.exc "unit not found"))).result
        = Except.error (PyErr.exc "unit not found") ∧
    (BaseHealer.safeExecute false 3
      (fun _ => Except.error (PyErr.exc "unit not found"))).calls = 3 ∧
    (BaseHealer.safeExecute false 3
      (fun _ => Except.error (PyErr.exc "unit not found"))).sleeps = 2 :=
  ⟨by decide,
   (claim_C4_retry_bound 3 (fun _ => PyErr.exc "unit not found") (by decide)).1⟩

/-- Claim C10: whenever any single system-metric probe raises (so its
`_safe_execute` sample is `None`), `SystemMetrics.is_healthy` does not return
a boolean: the `None` sample flows into a strict `<` comparison, which raises
an uncaught `TypeError`. -/
theorem claim_C10_null_sample_raises (cfg : CVal) (env : SystemEnv)
    (hfail : (∃ e, env.cpuUsage = Except.error e)
      ∨ (∃ e, env.memoryUsage = Except.error e)
      ∨ (∃ e, env.diskUsage = Except.error e)
      ∨ (∃ e, env.loadAverage = Except.error e)) :
    SystemMetrics.isHealthy cfg env = Except.error PyErr.typeError := by
  obtain ⟨c1, c2, c3, c4⟩ := env
  cases c1 with
  | error e => simp [SystemMetrics.isHealthy, SystemMetrics.collect,
      BaseMetricCollector.safeExecute, pyLt, Bind.bind, Except.bind]
  | ok v1 =>
    cases c2 with
    | error e => simp [SystemMetrics.isHealthy, SystemMetrics.collect,
        BaseMetricCollector.safeExecute, pyLt, Bind.bind, Except.bind]
    | ok v2 =>
      cases c3 with
      | error e => simp [SystemMetrics.isHealthy, SystemMetrics.collect,
          BaseMetricCollector.safeExecute, pyLt, Bind.bind, Except.bind]
      | ok v3 =>
        cases c4 with
        | error e => simp [SystemMetrics.isHealthy, SystemMetrics.collect,
            BaseMetricCollector.safeExecute, pyLt, Bind.bind, Except.bind]
        | ok v4 =>
          exfalso
          rcases hfail with ⟨e, he⟩ | ⟨e, he⟩ | ⟨e, he⟩ | ⟨e, he⟩ <;>
            exact Except.noConfusion he

/-- Witness for C10: the memory probe raises, the other probes succeed, and
the health verdict is an uncaught `TypeError` instead of a boolean. -/
theorem claim_C10_null_sample_raises_witness :
    ((∃ e, (Except.ok (ε := PyErr) (50 : ℚ)) = Except.error e)
      ∨ (∃ e, (Except.error (α := ℚ) (PyErr.exc "psutil failure"))
          = Except.error e)
      ∨ (∃ e, (Except.ok (ε := PyErr) (10 : ℚ)) = Except.error e)
      ∨ (∃ e, (Except.ok (ε := PyErr) (1 : ℚ)) = Except.error e)) ∧
    SystemMetrics.isHealthy sysExampleCfg
      ⟨Except.ok 50, Except.error (PyErr.exc "psutil failure"),
       Except.ok 10, Except.ok 1⟩ = Except.error PyErr.typeError :=
  ⟨Or.inr (Or.inl ⟨PyErr.exc "psutil failure", rfl⟩),
   claim_C10_null_sample_raises sysExampleCfg
     ⟨Except.ok 50, Except.error (PyErr.exc "psutil failure"),
      Except.ok 10, Except.ok 1⟩
     (Or.inr (Or.inl ⟨PyErr.exc "psutil failure", rfl⟩))⟩

/-- Counterexample to C5 as stated: `NetworkMetrics.is_healthy` does not AND
strict-less-than comparisons across all metrics the collector reports.  With
an empty configuration, a bytes-sent sample of 1000 MB/s (far above any
resolved threshold) and only 10 connections, the code returns healthy (true),
while the conjunction over all collected metrics — the claim's reading,
embodied by `NetworkMetrics.isHealthyAllMetrics` — is false. -/
theorem claim_C5_counterexample :
    NetworkMetrics.isHealthy (CVal.dict [])
      ⟨Except.ok 1000, Except.ok 0, Except.ok 10⟩ = Except.ok true ∧
    NetworkMetrics.isHealthyAllMetrics (CVal.dict [])
      ⟨Except.ok 1000, Except.ok 0, Except.ok 10⟩ = Except.ok false :=
  ⟨rfl, rfl⟩

/-- Claim C5 as amended: `SystemMetrics.is_healthy` collects its four metrics
in one pass, resolves a threshold for each, and returns the conjunction of the
four strict-less-than comparisons — on the spec's worked example
(cpu 50, mem 95, disk 10, load 1 against thresholds 80/90/90/5) it returns
false; `NetworkMetrics.is_healthy`, however, compares only the connection
count against its threshold, ignoring the bytes-sent/received metrics it
collected. -/
theorem claim_C5_health_conjunction (cfg : CVal) (env : SystemEnv)
    (c m d l : ℚ) (hc : env.cpuUsage = Except.ok c)
    (hm : env.memoryUsage = Except.ok m) (hd : env.diskUsage = Except.ok d)
    (hl : env.loadAverage = Except.ok l) :
    SystemMetrics.isHealthy cfg env = Except.ok
      (decide (c < BaseMetricCollector.getThreshold cfg "cpu_usage_percent" 80)
       && decide (m < BaseMetricCollector.getThreshold cfg "memory_usage_percent" 80)
       && decide (d < BaseMetricCollector.getThreshold cfg "disk_usage_percent" 80)
       && decide (l < BaseMetricCollector.getThreshold cfg "load_average_limit" 80)) ∧
    SystemMetrics.isHealthy sysExampleCfg
      ⟨Except.ok 50, Except.ok 95, Except.ok 10, Except.ok 1⟩
        = Except.ok false ∧
    (∀ (ncfg : CVal) (nenv : NetworkEnv),
      NetworkMetrics.isHealthy ncfg nenv
        = pyLt (NetworkMetrics.collect nenv).networkConnections
            (BaseMetricCollector.getThreshold ncfg "network.max_connections" 500)) := by
  obtain ⟨c1, c2, c3, c4⟩ := env
  cases hc
  cases hm
  cases hd
  cases hl
  refine ⟨?_, rfl, ?_⟩
  · simp only [SystemMetrics.isHealthy, SystemMetrics.collect,
      BaseMetricCollector.safeExecute, pyLt, Bind.bind, Except.bind]
    rfl
  · intro ncfg nenv
    rw [NetworkMetrics.isHealthy]
    cases hp : pyLt (NetworkMetrics.collect nenv).networkConnections
        (BaseMetricCollector.getThreshold ncfg "network.max_connections" 500)
    all_goals simp only [Bind.bind, Except.bind, hp]
    all_goals rfl

/-- Witness for the amended C5 at the spec's worked example. -/
theorem claim_C5_health_conjunction_witness :
    ((Except.ok (ε := PyErr) (50 : ℚ)) = Except.ok 50 ∧
     (Except.ok (ε := PyErr) (95 : ℚ)) = Except.ok 95 ∧
     (Except.ok (ε := PyErr) (10 : ℚ)) = Except.ok 10 ∧
     (Except.ok (ε := PyErr) (1 : ℚ)) = Except.ok 1) ∧
    SystemMetrics.isHealthy sysExampleCfg
      ⟨Except.ok 50, Except.ok 95, Except.ok 10, Except.ok 1⟩ = Except.ok
      (decide ((50 : ℚ) < BaseMetricCollector.getThreshold sysExampleCfg "cpu_usage_percent" 80)
       && decide ((95 : ℚ) < BaseMetricCollector.getThreshold sysExampleCfg "memory_usage_percent" 80)
       && decide ((10 : ℚ) < BaseMetricCollector.getThreshold sysExampleCfg "disk_usage_percent" 80)
       && decide ((1 : ℚ) < BaseMetricCollector.getThreshold sysExampleCfg "load_average_limit" 80)) :=
  ⟨⟨rfl, rfl, rfl, rfl⟩,
   (claim_C5_health_conjunction sysExampleCfg
     ⟨Except.ok 50, Except.ok 95, Except.ok 10, Except.ok 1⟩
     50 95 10 1 rfl rfl rfl rfl).1⟩

/-- Claim C6: threshold resolution precedence — a namespaced
`thresholds.<key>` value wins, else a flat top-level value, else the
caller-supplied default; the collector-level resolver never fails, swallowing
any lookup error and returning the default; on the worked example
`{thresholds: {cpu_usage_percent: 90}}` with default 80 it returns 90. -/
theorem claim_C6_threshold_precedence (cfg : CVal) (key : String)
    (dflt q : ℚ) (v w : CVal) (e : PyErr) :
    (ConfigLoader.get cfg ("thresholds." ++ key) CVal.null = v →
      v ≠ CVal.null → pyFloat v = Except.ok q →
      ConfigLoader.getThreshold cfg key dflt = Except.ok q) ∧
    (ConfigLoader.get cfg ("thresholds." ++ key) CVal.null = CVal.null →
      ConfigLoader.get cfg key CVal.null = w → w ≠ CVal.null →
      pyFloat w = Except.ok q →
      ConfigLoader.getThreshold cfg key dflt = Except.ok q) ∧
    (ConfigLoader.get cfg ("thresholds." ++ key) CVal.null = CVal.null →
      ConfigLoader.get cfg key CVal.null = CVal.null →
      ConfigLoader.getThreshold cfg key dflt = Except.ok dflt) ∧
    (ConfigLoader.getThreshold cfg key dflt = Except.error e →
      BaseMetricCollector.getThreshold cfg key dflt = dflt) ∧
    (ConfigLoader.getThreshold cfg key dflt = Except.ok q →
      BaseMetricCollector.getThreshold cfg key dflt = q) ∧
    BaseMetricCollector.getThreshold thrExampleCfg "cpu_usage_percent" 80
      = 90 := by
  refine ⟨?_, ?_, ?_, ?_, ?_, rfl⟩
  · intro h1 h2 h3
    rw [ConfigLoader.getThreshold, h1]
    cases v with
    | null => exact absurd rfl h2
    | num _ => exact h3
    | str _ => exact h3
    | boolean _ => exact h3
    | dict _ => exact h3
  · intro h1 h2 h3 h4
    rw [ConfigLoader.getThreshold, h1, h2]
    cases w with
    | null => exact absurd rfl h3
    | num _ => exact h4
    | str _ => exact h4
    | boolean _ => exact h4
    | dict _ => exact h4
  · intro h1 h2
    rw [ConfigLoader.getThreshold, h1, h2]
  · intro h1
    rw [BaseMetricCollector.getThreshold, h1]
  · intro h1
    rw [BaseMetricCollector.getThreshold, h1]

/-- Witness for C6 on the spec's worked example: the namespaced value 90 is
found, converts, and wins over the default 80. -/
theorem claim_C6_threshold_precedence_witness :
    (ConfigLoader.get thrExampleCfg "thresholds.cpu_usage_percent" CVal.null
       = CVal.num 90 ∧
     CVal.num 90 ≠ CVal.null ∧
     pyFloat (CVal.num 90) = Except.ok 90) ∧
    ConfigLoader.getThreshold thrExampleCfg "cpu_usage_percent" 80
      = Except.ok 90 :=
  ⟨⟨rfl, fun h => CVal.noConfusion h, rfl⟩,
   (claim_C6_threshold_precedence thrExampleCfg "cpu_usage_percent" 80 90
     (CVal.num 90) CVal.null PyErr.typeError).1 rfl
     (fun h => CVal.noConfusion h) rfl⟩

/-- Claim C8: the formatted alert message is the deterministic template
`"<LEVEL> Alert: <metric> exceeded threshold (<value> > <threshold>)"` with
the level upper-cased; in particular formatting cpu 95.3 against 80.0 at level
critical yields the spec's example string. -/
theorem claim_C8_message_format :
    (∀ (metric level : String) (value threshold : ℚ),
      BaseAlertSender.formatMessage metric value threshold level =
        strUpper level ++ " Alert: " ++ metric ++ " exceeded threshold ("
          ++ pyFloatRepr value ++ " > " ++ pyFloatRepr threshold ++ ")") ∧
    BaseAlertSender.formatMessage "cpu_usage_percent" 95.3 80 "critical" =
      "CRITICAL Alert: cpu_usage_percent exceeded threshold (95.3 > 80.0)" := by
  refine ⟨fun _ _ _ _ => rfl, ?_⟩
  have h953 : (95.3 : ℚ) = Rat.mk' 953 10 := by
    rw [Rat.mk'_eq_divInt, Rat.divInt_eq_div]
    norm_num
  rw [h953]
  decide
